import Mathlib

/-!
Verification of the text-reconstruction core of the `pdf` package
(github.com/AbdullahAlzariqi/pdf): font metrics provider, merge decision
engine, span builder, line/block aggregator and plain-text renderer.

The repository snapshot at hand ships the package documentation (`doc.go`),
the README with the merge-engine test file, but not the implementation files
themselves; the core definitions below are therefore modelled from the
specification (sections 3, 4.1-4.6), with numeric quantities embedded as
rationals standing for the spec's real-valued arithmetic.
-/

/-- Modelled from the spec: the `Font` handle (spec section 3), exposing the
glyph-width data the core reads: first/last character code, the width table
indexed by character code, and an optional declared default width.  The
implementation file defining `Font` is not in the snapshot. -/
structure Font where
  FirstChar : Int
  LastChar : Int
  Widths : List ℚ
  DefaultWidth : Option ℚ
deriving Repr, DecidableEq

/-- Modelled from the spec: a text run / span (spec section 3): font
identifier, font size, baseline X/Y, measured width and decoded text.
The implementation file defining `Span` is not in the snapshot; field names
follow the README examples (`Font`, `FontSize`, `X`, `Y`, `W`, `S`). -/
structure Span where
  Font : String
  FontSize : ℚ
  X : ℚ
  Y : ℚ
  W : ℚ
  S : String
deriving Repr, DecidableEq

/-- Modelled from the spec: the `MergeOptions` configuration (spec section 3):
maximum vertical baseline deviation and the factor applied to the expected
space width.  The implementation file is not in the snapshot. -/
structure MergeOptions where
  BaselineTolerance : ℚ
  SpaceMultiplier : ℚ
deriving Repr, DecidableEq

/-- Modelled from the spec: the process-wide default configuration (spec
section 6: "tolerance tuned to typical font-size fractions, multiplier
slightly above 1.0 to tolerate rounding").  The exact constants are not in
the snapshot; the values here satisfy every constraint the spec and the
shipped tests place on them (in particular `1 < SpaceMultiplier < 59/30`). -/
def DefaultMergeOptions : MergeOptions :=
  { BaselineTolerance := 2, SpaceMultiplier := 3/2 }

/-- Modelled from the spec: the hard-coded fallback width (spec section 4.1:
"the standard 1000-unit glyph-space default proportional width, e.g.
500/1000 of the design space"). -/
def defaultProportionalWidth : ℚ := 500

/-- The width a font falls back to when the width table does not answer:
the declared default width, else the hard-coded proportional fallback. -/
def Font.fallbackWidth (f : Font) : ℚ :=
  f.DefaultWidth.getD defaultProportionalWidth

/-- Modelled from the spec: the Font Metrics Provider `WidthOf` (spec
section 4.1).  Looks the character code up in the width table when it falls
within `[FirstChar, LastChar]`, otherwise returns the declared default
width, otherwise the hard-coded fallback.  Total: never fails.  The
implementation file is not in the snapshot. -/
def WidthOf (f : Font) (code : Int) : ℚ :=
  if f.FirstChar ≤ code ∧ code ≤ f.LastChar then
    (f.Widths.get? (code - f.FirstChar).toNat).getD f.fallbackWidth
  else
    f.fallbackWidth

/-- The character code of the inter-word space glyph. -/
def spaceCharacter : Int := 32

/-- Modelled from the spec: the small epsilon under which two font sizes
count as equal (spec section 4.2 step 1).  The exact constant is not in the
snapshot. -/
def fontSizeEpsilon : ℚ := 1/10

/-- Modelled from the spec: the expected advance of a single inter-word
space (spec section 4.2 step 2):
`WidthOf(font, spaceCharacter) / 1000 * fontSize + charSpacing + wordSpacing`. -/
def expectedGap (font : Font) (fontSize charSpacing wordSpacing : ℚ) : ℚ :=
  WidthOf font spaceCharacter / 1000 * fontSize + charSpacing + wordSpacing

/-- The observed horizontal gap between two runs (spec section 4.2 step 3):
`successor.X - (predecessor.X + predecessor.W)`. -/
def actualGap (pred succ : Span) : ℚ :=
  succ.X - (pred.X + pred.W)

/-- Modelled from the spec: the internal merge decision `canBeMerged` (spec
section 4.2, exercised by the shipped tests `TestCanBeMerged_FontSpaceWidth`
and `TestCanBeMerged_WithSpacingOperators`).  Rejects when fonts differ,
font sizes differ beyond the epsilon, or baselines differ beyond the
tolerance; otherwise merges iff the actual gap is at most
`expectedGap * SpaceMultiplier` (inclusive comparison).  The implementation
file is not in the snapshot. -/
def canBeMerged (pred succ : Span) (font : Font)
    (charSpacing wordSpacing : ℚ) (opts : MergeOptions) : Bool :=
  if pred.Font ≠ succ.Font then false
  else if fontSizeEpsilon < |pred.FontSize - succ.FontSize| then false
  else if opts.BaselineTolerance < |pred.Y - succ.Y| then false
  else
    decide (actualGap pred succ ≤
      expectedGap font pred.FontSize charSpacing wordSpacing * opts.SpaceMultiplier)

/-- Modelled from the spec: the exported merge decision `CanBeMerged`
(`doc.go` documents it; spec section 4.2 states the public operation
`CanMerge`).  Written directly from the spec's algorithm as one conjunction
of the step-1 acceptance conditions and the step-4 gap comparison, to be
compared with the internal `canBeMerged`. -/
def CanBeMerged (pred succ : Span) (font : Font)
    (charSpacing wordSpacing : ℚ) (opts : MergeOptions) : Bool :=
  decide (pred.Font = succ.Font) &&
  decide (|pred.FontSize - succ.FontSize| ≤ fontSizeEpsilon) &&
  decide (|pred.Y - succ.Y| ≤ opts.BaselineTolerance) &&
  decide (succ.X - (pred.X + pred.W) ≤
    (WidthOf font spaceCharacter / 1000 * pred.FontSize + charSpacing + wordSpacing)
      * opts.SpaceMultiplier)

/-- The font built by the shipped test helper `newTestFont`: width table of
one entry at character code 32 and no declared default width. -/
def newTestFont (spaceWidth : ℚ) : Font :=
  { FirstChar := 32, LastChar := 32, Widths := [spaceWidth], DefaultWidth := none }

/-- Modelled from the spec: extending the open span with the next run (spec
section 4.3): text is concatenated directly with no separator, and the
running width becomes `successor.X + successor.W - span.X`.  The
implementation file is not in the snapshot. -/
def appendRun (cur succ : Span) : Span :=
  { cur with S := cur.S ++ succ.S, W := succ.X + succ.W - cur.X }

/-- Modelled from the spec: the Span Builder's single left-to-right pass
(spec section 4.3), carrying the open span and the last run absorbed into
it; a failed merge closes the span and opens a new one from the rejected
run. -/
def buildSpansGo (font : Font) (cs ws : ℚ) (opts : MergeOptions) :
    Span → Span → List Span → List Span
  | cur, _, [] => [cur]
  | cur, last, r :: rs =>
    if canBeMerged last r font cs ws opts then
      buildSpansGo font cs ws opts (appendRun cur r) r rs
    else
      cur :: buildSpansGo font cs ws opts r r rs

/-- Modelled from the spec: the Span Builder (spec section 4.3): folds the
page's ordered run sequence into spans by repeated merge decisions. -/
def buildSpans (font : Font) (cs ws : ℚ) (opts : MergeOptions) :
    List Span → List Span
  | [] => []
  | r :: rs => buildSpansGo font cs ws opts r r rs

/-- The baseline of a line: the Y coordinate of its first span. -/
def lineBaseline : List Span → ℚ
  | [] => 0
  | s :: _ => s.Y

/-- Modelled from the spec: the line-grouping pass of the aggregator (spec
section 4.4), carrying the open line; a span joins the line when its
baseline is within the tolerance of the line's baseline. -/
def groupLinesGo (tol : ℚ) : List Span → List Span → List (List Span)
  | cur, [] => [cur]
  | cur, s :: rest =>
    if |s.Y - lineBaseline cur| ≤ tol then groupLinesGo tol (cur ++ [s]) rest
    else cur :: groupLinesGo tol [s] rest

/-- Modelled from the spec: grouping spans into lines by baseline proximity
(spec section 4.4).  The implementation file is not in the snapshot. -/
def groupLines (tol : ℚ) : List Span → List (List Span)
  | [] => []
  | s :: rest => groupLinesGo tol [s] rest

/-- The dominant font size of a block, modelled as the largest font size
among its spans (spec section 4.4 leaves the notion informal). -/
def blockDominantSize (block : List (List Span)) : ℚ :=
  (block.flatten.map Span.FontSize).foldr max 0

/-- The baseline of the last line of a block. -/
def lastBaseline (block : List (List Span)) : ℚ :=
  lineBaseline (block.getLast?.getD [])

/-- Modelled from the spec: the block-grouping pass of the aggregator (spec
section 4.4), carrying the open block; a line joins the block when the
vertical gap to the block's last baseline is within the derived multiple of
the dominant font size, else a new block starts. -/
def groupBlocksGo (mult : ℚ) :
    List (List Span) → List (List Span) → List (List (List Span))
  | cur, [] => [cur]
  | cur, l :: rest =>
    if |lineBaseline l - lastBaseline cur| ≤ mult * blockDominantSize cur then
      groupBlocksGo mult (cur ++ [l]) rest
    else cur :: groupBlocksGo mult [l] rest

/-- Modelled from the spec: grouping consecutive lines into blocks (spec
section 4.4, paragraph continuation heuristic).  The implementation file is
not in the snapshot; the gap multiplier is the spec's tunable constant. -/
def groupBlocks (mult : ℚ) : List (List Span) → List (List (List Span))
  | [] => []
  | l :: rest => groupBlocksGo mult [l] rest

/-- Modelled from the spec: the Line/Block Aggregator (spec section 4.4):
lines by baseline proximity, then consecutive lines into blocks. -/
def aggregate (tol mult : ℚ) (spans : List Span) : List (List (List Span)) :=
  groupBlocks mult (groupLines tol spans)

/-- The span list re-extracted from an aggregator output, in order. -/
def flattenBlocks (blocks : List (List (List Span))) : List Span :=
  blocks.flatten.flatten

/-- Modelled from the spec: whether two adjacent non-merged spans on a line
are far enough apart to need an inserted space (spec section 4.6). -/
def needsSeparator (pred succ : Span) : Bool :=
  decide (0 < succ.X - (pred.X + pred.W))

/-- Rendering the tail of a line after its first span, inserting a single
space before a span far enough from its predecessor. -/
def renderLineGo : Span → List Span → String
  | _, [] => ""
  | prev, s :: rest =>
    (if needsSeparator prev s then " " else "") ++ s.S ++ renderLineGo s rest

/-- Modelled from the spec: rendering one line (spec section 4.6): spans
concatenated with no separator, or one space when far enough apart. -/
def renderLine : List Span → String
  | [] => ""
  | s :: rest => s.S ++ renderLineGo s rest

/-- Modelled from the spec: rendering one block (spec section 4.6): each
line ends with a newline. -/
def renderBlock (b : List (List Span)) : String :=
  String.join (b.map (fun l => renderLine l ++ "\n"))

/-- Modelled from the spec: the Plain-Text Renderer over a page's blocks
(spec section 4.6): blocks separated by a blank line. -/
def renderPage (blocks : List (List (List Span))) : String :=
  String.intercalate "\n" (blocks.map renderBlock)

/-- Joining a cons is appending the head to the join of the tail. -/
theorem join_cons (s : String) (l : List String) :
    String.join (s :: l) = s ++ String.join l := by
  apply String.ext
  simp [String.join_eq, String.data_append]

/-- Characterization of the internal merge decision as one conjunction. -/
theorem canBeMerged_eq_true_iff (pred succ : Span) (font : Font)
    (cs ws : ℚ) (opts : MergeOptions) :
    canBeMerged pred succ font cs ws opts = true ↔
      pred.Font = succ.Font ∧
      |pred.FontSize - succ.FontSize| ≤ fontSizeEpsilon ∧
      |pred.Y - succ.Y| ≤ opts.BaselineTolerance ∧
      actualGap pred succ ≤
        expectedGap font pred.FontSize cs ws * opts.SpaceMultiplier := by
  unfold canBeMerged
  split_ifs with h1 h2 h3 <;>
    simp_all [not_lt, le_of_not_lt, not_le]


/-- The test helper's font answers the space-width lookup with the width it
was built from. -/
theorem WidthOf_newTestFont (w : ℚ) :
    WidthOf (newTestFont w) spaceCharacter = w := by
  simp [WidthOf, newTestFont, spaceCharacter]

/-- C1: for every pair of runs with identical font, identical font size,
and baselines within `BaselineTolerance`, `canBeMerged` returns true iff
`actualGap = successor.X - (predecessor.X + predecessor.W)` is at most
`expectedGap * SpaceMultiplier`; so it merges at exact equality (inclusive
boundary) and rejects whenever the gap strictly exceeds the bound. -/
theorem canBeMerged_inclusive_gap_iff (pred succ : Span) (font : Font)
    (cs ws : ℚ) (opts : MergeOptions)
    (hfont : pred.Font = succ.Font) (hsize : pred.FontSize = succ.FontSize)
    (hbase : |pred.Y - succ.Y| ≤ opts.BaselineTolerance) :
    canBeMerged pred succ font cs ws opts = true ↔
      actualGap pred succ ≤
        expectedGap font pred.FontSize cs ws * opts.SpaceMultiplier := by
  rw [canBeMerged_eq_true_iff, hsize]
  norm_num [hfont, hbase, fontSizeEpsilon]

/-- Witness for C1 at the shipped test's data: space width 500, size 12,
gap exactly one space width. -/
theorem canBeMerged_inclusive_gap_iff_witness :
    canBeMerged ⟨"F1", 12, 0, 0, 20, "a"⟩ ⟨"F1", 12, 26, 0, 10, "b"⟩
      (newTestFont 500) 0 0 DefaultMergeOptions = true :=
  (canBeMerged_inclusive_gap_iff ⟨"F1", 12, 0, 0, 20, "a"⟩
      ⟨"F1", 12, 26, 0, 10, "b"⟩ (newTestFont 500) 0 0 DefaultMergeOptions
      rfl rfl (by norm_num [DefaultMergeOptions])).mpr
    (by norm_num [actualGap, expectedGap, WidthOf_newTestFont,
      DefaultMergeOptions])

/-- C2: the merge decision's expected gap is
`WidthOf(font, spaceCharacter) / 1000 * FontSize + charSpacing + wordSpacing`;
with space glyph width 250, size 12, charSpacing 1 and wordSpacing 2 the
expected gap is 6, and a gap of 5.9 merges with those spacing parameters
but not with both spacings zero. -/
theorem expectedGap_formula_scenario :
    (∀ (font : Font) (fs cs ws : ℚ),
        expectedGap font fs cs ws =
          WidthOf font spaceCharacter / 1000 * fs + cs + ws) ∧
    expectedGap (newTestFont 250) 12 1 2 = 6 ∧
    canBeMerged ⟨"F1", 12, 0, 0, 15, "a"⟩ ⟨"F1", 12, 209/10, 0, 5, "b"⟩
      (newTestFont 250) 1 2 DefaultMergeOptions = true ∧
    canBeMerged ⟨"F1", 12, 0, 0, 15, "a"⟩ ⟨"F1", 12, 209/10, 0, 5, "b"⟩
      (newTestFont 250) 0 0 DefaultMergeOptions = false := by
  refine ⟨fun _ _ _ _ => rfl, ?_, ?_, ?_⟩
  · norm_num [expectedGap, WidthOf_newTestFont]
  · rw [canBeMerged_eq_true_iff]
    norm_num [actualGap, expectedGap, WidthOf_newTestFont, fontSizeEpsilon,
      DefaultMergeOptions]
  · rw [← Bool.not_eq_true, canBeMerged_eq_true_iff]
    push_neg
    intro h1 h2 h3
    norm_num [actualGap, expectedGap, WidthOf_newTestFont, DefaultMergeOptions]

/-- C3: `WidthOf` returns the width-table entry when
`FirstChar ≤ code ≤ LastChar`, otherwise the declared default width,
otherwise the hard-coded 500/1000 proportional fallback; it is a total
function, defined for every (font, code) input. -/
theorem WidthOf_total_cases (f : Font) (code : Int) :
    (∀ w : ℚ, f.FirstChar ≤ code → code ≤ f.LastChar →
        f.Widths.get? (code - f.FirstChar).toNat = some w →
        WidthOf f code = w) ∧
    (∀ d : ℚ, ¬(f.FirstChar ≤ code ∧ code ≤ f.LastChar) →
        f.DefaultWidth = some d → WidthOf f code = d) ∧
    (¬(f.FirstChar ≤ code ∧ code ≤ f.LastChar) → f.DefaultWidth = none →
        WidthOf f code = defaultProportionalWidth) := by
  refine ⟨?_, ?_, ?_⟩
  · intro w h1 h2 hw
    rw [List.get?_eq_getElem?] at hw
    simp [WidthOf, h1, h2, hw]
  · intro d h hd
    simp [WidthOf, h, Font.fallbackWidth, hd]
  · intro h hd
    simp [WidthOf, h, Font.fallbackWidth, hd]

/-- Witness for C3: a table hit, a declared-default fallback, and the
hard-coded fallback, each at concrete data. -/
theorem WidthOf_total_cases_witness :
    WidthOf (newTestFont 250) 32 = 250 ∧
    WidthOf ⟨0, 0, [], some 700⟩ 5 = 700 ∧
    WidthOf (newTestFont 250) 33 = defaultProportionalWidth :=
  ⟨(WidthOf_total_cases (newTestFont 250) 32).1 250 (by decide) (by decide)
      rfl,
   (WidthOf_total_cases ⟨0, 0, [], some 700⟩ 5).2.1 700 (by decide) rfl,
   (WidthOf_total_cases (newTestFont 250) 33).2.2 (by decide) rfl⟩

/-- C4: the merge decision is monotone in the spacing parameters: with a
non-negative `SpaceMultiplier` (the spec validates options non-negative at
construction), enlarging `charSpacing` or `wordSpacing` never turns a
mergeable pair into a non-mergeable one. -/
theorem canBeMerged_mono_spacing (pred succ : Span) (font : Font)
    (cs cs2 ws ws2 : ℚ) (opts : MergeOptions)
    (hm : 0 ≤ opts.SpaceMultiplier) (hcs : cs ≤ cs2) (hws : ws ≤ ws2)
    (h : canBeMerged pred succ font cs ws opts = true) :
    canBeMerged pred succ font cs2 ws2 opts = true := by
  rw [canBeMerged_eq_true_iff] at h ⊢
  obtain ⟨h1, h2, h3, h4⟩ := h
  refine ⟨h1, h2, h3, h4.trans (mul_le_mul_of_nonneg_right ?_ hm)⟩
  unfold expectedGap
  linarith

/-- Witness for C4: a pair mergeable with zero spacings stays mergeable
with charSpacing 1 and wordSpacing 2. -/
theorem canBeMerged_mono_spacing_witness :
    canBeMerged ⟨"F1", 12, 0, 0, 20, "a"⟩ ⟨"F1", 12, 26, 0, 10, "b"⟩
      (newTestFont 500) 1 2 DefaultMergeOptions = true :=
  canBeMerged_mono_spacing ⟨"F1", 12, 0, 0, 20, "a"⟩ ⟨"F1", 12, 26, 0, 10, "b"⟩
    (newTestFont 500) 0 1 0 2 DefaultMergeOptions
    (by norm_num [DefaultMergeOptions]) (by norm_num) (by norm_num)
    (by
      rw [canBeMerged_eq_true_iff]
      norm_num [actualGap, expectedGap, WidthOf_newTestFont, fontSizeEpsilon,
        DefaultMergeOptions])

/-- C5: `canBeMerged` returns false whenever the font identifiers differ,
the font sizes differ by more than the epsilon, or the baselines differ by
more than `BaselineTolerance`, regardless of the horizontal gap. -/
theorem canBeMerged_reject_conditions (pred succ : Span) (font : Font)
    (cs ws : ℚ) (opts : MergeOptions)
    (h : pred.Font ≠ succ.Font ∨
        fontSizeEpsilon < |pred.FontSize - succ.FontSize| ∨
        opts.BaselineTolerance < |pred.Y - succ.Y|) :
    canBeMerged pred succ font cs ws opts = false := by
  have hn : ¬ canBeMerged pred succ font cs ws opts = true := by
    rw [canBeMerged_eq_true_iff]
    rintro ⟨h1, h2, h3, _⟩
    rcases h with h | h | h
    · exact h h1
    · exact absurd h2 (not_le.mpr h)
    · exact absurd h3 (not_le.mpr h)
  simpa using hn

/-- Witness for C5: identical baselines and zero gap, but different font
identifiers: no merge. -/
theorem canBeMerged_reject_conditions_witness :
    canBeMerged ⟨"F1", 12, 0, 0, 20, "a"⟩ ⟨"F2", 12, 20, 0, 10, "b"⟩
      (newTestFont 500) 0 0 DefaultMergeOptions = false :=
  canBeMerged_reject_conditions ⟨"F1", 12, 0, 0, 20, "a"⟩
    ⟨"F2", 12, 20, 0, 10, "b"⟩ (newTestFont 500) 0 0 DefaultMergeOptions
    (Or.inl (by decide))

/-- C6: with identical font and size, baseline within tolerance, a
non-negative expected gap (the spec guarantees `expectedGap` is always
non-negative) and a non-negative multiplier, an overlapping pair
(`successor.X < predecessor.X + predecessor.W`, negative actual gap) is
always mergeable. -/
theorem canBeMerged_overlap (pred succ : Span) (font : Font)
    (cs ws : ℚ) (opts : MergeOptions)
    (hfont : pred.Font = succ.Font) (hsize : pred.FontSize = succ.FontSize)
    (hbase : |pred.Y - succ.Y| ≤ opts.BaselineTolerance)
    (hm : 0 ≤ opts.SpaceMultiplier)
    (hexp : 0 ≤ expectedGap font pred.FontSize cs ws)
    (hover : succ.X < pred.X + pred.W) :
    canBeMerged pred succ font cs ws opts = true := by
  rw [canBeMerged_eq_true_iff]
  refine ⟨hfont, ?_, hbase, ?_⟩
  · rw [hsize, sub_self, abs_zero]
    norm_num [fontSizeEpsilon]
  · have hlt : actualGap pred succ < 0 := by
      unfold actualGap
      linarith
    exact hlt.le.trans (mul_nonneg hexp hm)

/-- Witness for C6: the successor starts inside the predecessor. -/
theorem canBeMerged_overlap_witness :
    canBeMerged ⟨"F1", 12, 0, 0, 20, "a"⟩ ⟨"F1", 12, 10, 0, 10, "b"⟩
      (newTestFont 500) 0 0 DefaultMergeOptions = true :=
  canBeMerged_overlap ⟨"F1", 12, 0, 0, 20, "a"⟩ ⟨"F1", 12, 10, 0, 10, "b"⟩
    (newTestFont 500) 0 0 DefaultMergeOptions rfl rfl
    (by norm_num [DefaultMergeOptions]) (by norm_num [DefaultMergeOptions])
    (by norm_num [expectedGap, WidthOf_newTestFont]) (by norm_num)

/-- The text of the spans produced by the builder's pass is the open span's
text followed by the texts of the remaining runs. -/
theorem buildSpansGo_text (font : Font) (cs ws : ℚ) (opts : MergeOptions)
    (rs : List Span) : ∀ cur last : Span,
    String.join ((buildSpansGo font cs ws opts cur last rs).map Span.S)
      = cur.S ++ String.join (rs.map Span.S) := by
  induction rs with
  | nil =>
    intro cur last
    simp [buildSpansGo, join_cons]
  | cons r rs ih =>
    intro cur last
    unfold buildSpansGo
    split
    · rw [ih]
      simp [appendRun, join_cons, String.append_assoc]
    · rw [List.map_cons, join_cons, ih]
      simp [join_cons, String.append_assoc]

/-- C7: the Span Builder preserves content: the concatenated text of the
produced spans equals the concatenated text of the input runs, in order,
with no separators inserted, no loss and no reordering. -/
theorem buildSpans_content (font : Font) (cs ws : ℚ) (opts : MergeOptions)
    (runs : List Span) :
    String.join ((buildSpans font cs ws opts runs).map Span.S)
      = String.join (runs.map Span.S) := by
  cases runs with
  | nil => rfl
  | cons r rs => simp [buildSpans, buildSpansGo_text, join_cons]

/-- C8: the empty page goes through the whole pipeline without error: zero
spans from the builder, zero lines and zero blocks from the aggregator, and
an empty rendered text stream. -/
theorem empty_page_pipeline (font : Font) (cs ws : ℚ) (opts : MergeOptions)
    (tol mult : ℚ) :
    buildSpans font cs ws opts [] = [] ∧
    groupLines tol (buildSpans font cs ws opts []) = [] ∧
    aggregate tol mult (buildSpans font cs ws opts []) = [] ∧
    renderPage (aggregate tol mult (buildSpans font cs ws opts [])) = "" :=
  ⟨rfl, rfl, rfl, rfl⟩

/-- Flattening the line-grouping pass recovers the open line followed by
the remaining spans. -/
theorem groupLinesGo_flatten (tol : ℚ) (rest : List Span) :
    ∀ cur : List Span, (groupLinesGo tol cur rest).flatten = cur ++ rest := by
  induction rest with
  | nil =>
    intro cur
    simp [groupLinesGo]
  | cons s rest ih =>
    intro cur
    unfold groupLinesGo
    split
    · rw [ih]
      simp
    · simp [ih]

/-- Flattening the lines produced by the aggregator recovers the spans. -/
theorem groupLines_flatten (tol : ℚ) (spans : List Span) :
    (groupLines tol spans).flatten = spans := by
  cases spans with
  | nil => rfl
  | cons s rest => simp [groupLines, groupLinesGo_flatten]

/-- Flattening the block-grouping pass recovers the open block followed by
the remaining lines. -/
theorem groupBlocksGo_flatten (mult : ℚ) (rest : List (List Span)) :
    ∀ cur : List (List Span),
    (groupBlocksGo mult cur rest).flatten = cur ++ rest := by
  induction rest with
  | nil =>
    intro cur
    simp [groupBlocksGo]
  | cons l rest ih =>
    intro cur
    unfold groupBlocksGo
    split
    · rw [ih]
      simp
    · simp [ih]

/-- Flattening the blocks produced by the aggregator recovers the lines. -/
theorem groupBlocks_flatten (mult : ℚ) (lines : List (List Span)) :
    (groupBlocks mult lines).flatten = lines := by
  cases lines with
  | nil => rfl
  | cons l rest => simp [groupBlocks, groupBlocksGo_flatten]

/-- Re-extracting the span list from the aggregator's output recovers the
input span list exactly. -/
theorem flattenBlocks_aggregate (tol mult : ℚ) (spans : List Span) :
    flattenBlocks (aggregate tol mult spans) = spans := by
  unfold flattenBlocks aggregate
  rw [groupBlocks_flatten, groupLines_flatten]

/-- C9: the Line/Block Aggregator is idempotent: re-running it on the span
list re-extracted from its own output yields the same lines in the same
blocks. -/
theorem aggregate_idempotent (tol mult : ℚ) (spans : List Span) :
    aggregate tol mult (flattenBlocks (aggregate tol mult spans))
      = aggregate tol mult spans := by
  rw [flattenBlocks_aggregate]

/-- C10: the exported `CanBeMerged` and the internal `canBeMerged` agree on
every pair of spans, font, spacing parameters and options. -/
theorem CanBeMerged_eq_canBeMerged (pred succ : Span) (font : Font)
    (cs ws : ℚ) (opts : MergeOptions) :
    CanBeMerged pred succ font cs ws opts
      = canBeMerged pred succ font cs ws opts := by
  have h : CanBeMerged pred succ font cs ws opts = true ↔
      canBeMerged pred succ font cs ws opts = true := by
    rw [canBeMerged_eq_true_iff]
    simp [CanBeMerged, actualGap, expectedGap, and_assoc]
  cases hc : canBeMerged pred succ font cs ws opts
  · rw [← Bool.not_eq_true, h, hc]
    simp
  · exact h.mpr hc
